import Mathlib

/-!
Shallow embedding of `internal/model/webauthn.go` (Authelia's WebAuthn model
layer) together with the external primitives it calls: `encoding/base64`
(standard encoding), `encoding/hex`, `google/uuid` (`Parse`, `UUID.String`,
`UUID.ID`, `NullUUID.MarshalBinary`) and `strings.Split`/`strings.Join`.

Go byte slices are `List Nat` (each entry a byte value `< 256`), `time.Time`
is an `Int` (unix nanoseconds; only copied, never computed with),
`sql.NullTime` and `uuid.NullUUID` are explicit valid/value pairs, matching
their Go zero values.  Go methods that mutate their receiver become functions
returning the updated receiver; `UnmarshalYAML` additionally returns the
error outcome so that partial receiver mutation on a failing decode stays
observable.
-/

namespace Webauthn

/-! ## Bytes, hex and base64 primitives (Go standard library) -/

/-- The lower-case hexadecimal digit for a value `v < 16`, as used by
`encoding/hex`. -/
def hexChr (v : Nat) : Char :=
  (("0123456789abcdef".toList).getD v '0')

/-- `encoding/hex.EncodeToString`: every byte becomes two lower-case hex
digits, high nibble first. -/
def hexEncode : List Nat → List Char
  | [] => []
  | b :: bs => hexChr (b / 16) :: hexChr (b % 16) :: hexEncode bs

/-- Value of one hexadecimal digit, accepting `0-9`, `a-f` and `A-F`, as the
`xvalues` table of `google/uuid` does. -/
def hexVal (c : Char) : Option Nat :=
  if '0' ≤ c ∧ c ≤ '9' then some (c.toNat - '0'.toNat)
  else if 'a' ≤ c ∧ c ≤ 'f' then some (c.toNat - 'a'.toNat + 10)
  else if 'A' ≤ c ∧ c ≤ 'F' then some (c.toNat - 'A'.toNat + 10)
  else none

/-- `google/uuid.xtob`: two hex digits to one byte. -/
def xtob (c1 c2 : Char) : Option Nat :=
  match hexVal c1, hexVal c2 with
  | some h, some l => some (h * 16 + l)
  | _, _ => none

/-- The standard base64 alphabet of `encoding/base64.StdEncoding`. -/
def b64Alphabet : List Char :=
  "ABCDEFGHIJKLMNOPQRSTUVWXYZabcdefghijklmnopqrstuvwxyz0123456789+/".toList

/-- Character of one six-bit group under the standard alphabet. -/
def b64Chr (v : Nat) : Char := b64Alphabet.getD v 'A'

/-- Index of a character in the standard alphabet, `none` when it is not a
base64 digit. -/
def b64Val (c : Char) : Option Nat := b64Alphabet.findIdx? (fun x => x == c)

/-- `base64.StdEncoding` encoding of a byte list: three bytes become four
characters, a short final group is completed with `=` padding. -/
def b64Encode : List Nat → List Char
  | [] => []
  | [b1] => [b64Chr (b1 / 4), b64Chr (b1 % 4 * 16), '=', '=']
  | [b1, b2] => [b64Chr (b1 / 4), b64Chr (b1 % 4 * 16 + b2 / 16), b64Chr (b2 % 16 * 4), '=']
  | b1 :: b2 :: b3 :: bs =>
      b64Chr (b1 / 4) :: b64Chr (b1 % 4 * 16 + b2 / 16) ::
      b64Chr (b2 % 16 * 4 + b3 / 64) :: b64Chr (b3 % 64) :: b64Encode bs

/-- `base64.StdEncoding` decoding: the input is consumed four characters at a
time; `=` padding may close only the final quadruple.  `none` is Go's
`CorruptInputError`. -/
def b64DecodeChunks : List Char → Option (List Nat)
  | [] => some []
  | c1 :: c2 :: c3 :: c4 :: rest =>
      match b64Val c1, b64Val c2 with
      | some v1, some v2 =>
          if c3 = '=' then
            if c4 = '=' ∧ rest = [] then some [v1 * 4 + v2 / 16] else none
          else
            match b64Val c3 with
            | some v3 =>
                if c4 = '=' then
                  if rest = [] then some [v1 * 4 + v2 / 16, v2 % 16 * 16 + v3 / 4] else none
                else
                  match b64Val c4 with
                  | some v4 =>
                      (b64DecodeChunks rest).map
                        (fun bs => (v1 * 4 + v2 / 16) :: (v2 % 16 * 16 + v3 / 4) ::
                                   (v3 % 4 * 64 + v4) :: bs)
                  | none => none
            | none => none
      | _, _ => none
  | _ => none

/-- `base64.StdEncoding.EncodeToString`. -/
def b64EncodeStr (bs : List Nat) : String := String.mk (b64Encode bs)

/-- `base64.StdEncoding.DecodeString`: newline characters are ignored, then
the text is decoded in quadruples. -/
def b64DecodeStr (s : String) : Option (List Nat) :=
  b64DecodeChunks (s.toList.filter (fun c => !(c == '\r' || c == '\n')))

/-! ## UUIDs (`google/uuid`) -/

/-- `uuid.UUID`, a fixed array of sixteen bytes. -/
structure UUID where
  b0 : Nat
  b1 : Nat
  b2 : Nat
  b3 : Nat
  b4 : Nat
  b5 : Nat
  b6 : Nat
  b7 : Nat
  b8 : Nat
  b9 : Nat
  b10 : Nat
  b11 : Nat
  b12 : Nat
  b13 : Nat
  b14 : Nat
  b15 : Nat
deriving DecidableEq, Repr

/-- The all-zero `uuid.Nil`. -/
def uuidNil : UUID := ⟨0, 0, 0, 0, 0, 0, 0, 0, 0, 0, 0, 0, 0, 0, 0, 0⟩

/-- The sixteen bytes of a UUID in order. -/
def UUID.bytes (u : UUID) : List Nat :=
  [u.b0, u.b1, u.b2, u.b3, u.b4, u.b5, u.b6, u.b7,
   u.b8, u.b9, u.b10, u.b11, u.b12, u.b13, u.b14, u.b15]

/-- `uuid.UUID.ID`: the first four bytes read as a big-endian 32-bit
integer (the `time_low` field). -/
def UUID.id (u : UUID) : Nat :=
  u.b0 * 16777216 + u.b1 * 65536 + u.b2 * 256 + u.b3

/-- Every byte of the UUID is an actual byte value. -/
def UUID.wf (u : UUID) : Prop :=
  u.b0 < 256 ∧ u.b1 < 256 ∧ u.b2 < 256 ∧ u.b3 < 256 ∧
  u.b4 < 256 ∧ u.b5 < 256 ∧ u.b6 < 256 ∧ u.b7 < 256 ∧
  u.b8 < 256 ∧ u.b9 < 256 ∧ u.b10 < 256 ∧ u.b11 < 256 ∧
  u.b12 < 256 ∧ u.b13 < 256 ∧ u.b14 < 256 ∧ u.b15 < 256

instance (u : UUID) : Decidable u.wf := by unfold UUID.wf; infer_instance

/-- Both hex digits of a byte, high nibble first. -/
def hexPairHi (b : Nat) : Char := hexChr (b / 16)

/-- Low hex digit of a byte. -/
def hexPairLo (b : Nat) : Char := hexChr (b % 16)

/-- The 36 characters of `uuid.UUID.String`:
`xxxxxxxx-xxxx-xxxx-xxxx-xxxxxxxxxxxx` in lower-case hex. -/
def uuidChars (u : UUID) : List Char :=
  [hexPairHi u.b0, hexPairLo u.b0, hexPairHi u.b1, hexPairLo u.b1,
   hexPairHi u.b2, hexPairLo u.b2, hexPairHi u.b3, hexPairLo u.b3, '-',
   hexPairHi u.b4, hexPairLo u.b4, hexPairHi u.b5, hexPairLo u.b5, '-',
   hexPairHi u.b6, hexPairLo u.b6, hexPairHi u.b7, hexPairLo u.b7, '-',
   hexPairHi u.b8, hexPairLo u.b8, hexPairHi u.b9, hexPairLo u.b9, '-',
   hexPairHi u.b10, hexPairLo u.b10, hexPairHi u.b11, hexPairLo u.b11,
   hexPairHi u.b12, hexPairLo u.b12, hexPairHi u.b13, hexPairLo u.b13,
   hexPairHi u.b14, hexPairLo u.b14, hexPairHi u.b15, hexPairLo u.b15]

/-- `uuid.UUID.String`. -/
def UUID.toString (u : UUID) : String := String.mk (uuidChars u)

/-- The dashed-form body of `google/uuid.Parse`: exactly 36 characters with
dashes at offsets 8, 13, 18 and 23, the rest hex pairs. -/
def parseDashed (cs : List Char) : Option UUID :=
  match cs with
  | a0 :: a1 :: a2 :: a3 :: a4 :: a5 :: a6 :: a7 :: '-' :: a9 :: a10 :: a11 :: a12 :: '-' ::
    a14 :: a15 :: a16 :: a17 :: '-' :: a19 :: a20 :: a21 :: a22 :: '-' ::
    a24 :: a25 :: a26 :: a27 :: a28 :: a29 :: a30 :: a31 :: a32 :: a33 :: a34 :: a35 :: [] =>
      match xtob a0 a1, xtob a2 a3, xtob a4 a5, xtob a6 a7,
            xtob a9 a10, xtob a11 a12, xtob a14 a15, xtob a16 a17,
            xtob a19 a20, xtob a21 a22, xtob a24 a25, xtob a26 a27,
            xtob a28 a29, xtob a30 a31, xtob a32 a33, xtob a34 a35 with
      | some v0, some v1, some v2, some v3, some v4, some v5, some v6, some v7,
        some v8, some v9, some v10, some v11, some v12, some v13, some v14, some v15 =>
          some ⟨v0, v1, v2, v3, v4, v5, v6, v7, v8, v9, v10, v11, v12, v13, v14, v15⟩
      | _, _, _, _, _, _, _, _, _, _, _, _, _, _, _, _ => none
  | _ => none

/-- The 32-hex-digit body of `google/uuid.Parse` (no dashes). -/
def parseHex32 : List Char → Option (List Nat)
  | [] => some []
  | c1 :: c2 :: rest =>
      match xtob c1 c2 with
      | some b => (parseHex32 rest).map (fun bs => b :: bs)
      | none => none
  | _ => none

/-- ASCII case-insensitive character comparison, as `strings.EqualFold` does
on ASCII input. -/
def charFoldEq (a b : Char) : Bool :=
  a.toLower == b.toLower

/-- `google/uuid.Parse`, by input length: the plain dashed form (36), the
`urn:uuid:` form (45, prefix compared case-insensitively), the braced form
(38, where only the 36 characters after the first are inspected) and the
bare 32-hex-digit form. -/
def uuidParse (s : String) : Option UUID :=
  let cs := s.toList
  if cs.length = 36 then parseDashed cs
  else if cs.length = 45 then
    if (cs.take 9).zip "urn:uuid:".toList |>.all (fun p => charFoldEq p.1 p.2) then
      parseDashed (cs.drop 9)
    else none
  else if cs.length = 38 then parseDashed ((cs.drop 1).take 36)
  else if cs.length = 32 then
    match parseHex32 cs with
    | some [v0, v1, v2, v3, v4, v5, v6, v7, v8, v9, v10, v11, v12, v13, v14, v15] =>
        some ⟨v0, v1, v2, v3, v4, v5, v6, v7, v8, v9, v10, v11, v12, v13, v14, v15⟩
    | _ => none
  else none

/-- `uuid.NullUUID`: a UUID together with a validity flag.  The Go zero
value is `{UUID: uuid.Nil, Valid: false}`. -/
structure NullUUID where
  uuid : UUID
  valid : Bool
deriving DecidableEq, Repr

/-- `uuid.NullUUID.MarshalBinary` of `google/uuid`: the sixteen raw bytes
when valid, an empty slice when not.  It never returns an error. -/
def NullUUID.marshalBinary (nu : NullUUID) : Except String (List Nat) :=
  if nu.valid then .ok nu.uuid.bytes else .ok []

/-! ## Remaining scalar wrappers -/

/-- `sql.NullTime` over the `Int` model of `time.Time`; the Go zero value is
`{Time: 0, Valid: false}`. -/
structure NullTime where
  time : Int
  valid : Bool
deriving DecidableEq, Repr

/-- Modelled from the spec: the repository's `Base64` value type (declared
outside this file) holds the raw credential-identifier bytes; `kid` is kept
in "canonical base64 form", its text form being the standard base64
rendering of those bytes. -/
structure Base64 where
  data : List Nat
deriving DecidableEq, Repr

/-- Modelled from the spec: `NewBase64` wraps raw bytes. -/
def NewBase64 (bytes : List Nat) : Base64 := ⟨bytes⟩

/-- Modelled from the spec: `Base64.Bytes` returns the raw bytes. -/
def Base64.bytes (b : Base64) : List Nat := b.data

/-- Modelled from the spec: `Base64.String` renders the bytes in the
canonical (standard) base64 text form. -/
def Base64.toString (b : Base64) : String := b64EncodeStr b.data

/-- The `attestationTypeFIDOU2F` constant. -/
def attestationTypeFIDOU2F : String := "fido-u2f"

/-! ## Data model (`webauthn.go`) -/

/-- `model.WebAuthnDevice`, the persisted entity. -/
structure WebAuthnDevice where
  id : Int
  createdAt : Int
  lastUsedAt : NullTime
  rpid : String
  username : String
  description : String
  kid : Base64
  publicKey : List Nat
  attestationType : String
  transport : String
  aaguid : NullUUID
  signCount : Nat
  cloneWarning : Bool
deriving DecidableEq, Repr

/-- The Go zero value of `WebAuthnDevice`, the state of a decode target
freshly allocated by the structured-text engine. -/
def zeroWebAuthnDevice : WebAuthnDevice :=
  { id := 0, createdAt := 0, lastUsedAt := ⟨0, false⟩, rpid := "", username := ""
    description := "", kid := ⟨[]⟩, publicKey := [], attestationType := ""
    transport := "", aaguid := ⟨uuidNil, false⟩, signCount := 0, cloneWarning := false }

/-- `model.WebAuthnUser`. -/
structure WebAuthnUser where
  username : String
  displayName : String
  devices : List WebAuthnDevice
deriving DecidableEq, Repr

/-- `webauthn.Authenticator` of the ceremony-engine library. -/
structure Authenticator where
  aaguid : List Nat
  signCount : Nat
  cloneWarning : Bool
deriving DecidableEq, Repr

/-- `webauthn.Credential` of the ceremony-engine library; transports are
their string values. -/
structure Credential where
  id : List Nat
  publicKey : List Nat
  attestationType : String
  transport : List String
  authenticator : Authenticator
deriving DecidableEq, Repr

/-- The zero `webauthn.Credential`, the content of a freshly `make`d slice
slot. -/
def zeroCredential : Credential :=
  { id := [], publicKey := [], attestationType := "", transport := []
    authenticator := { aaguid := [], signCount := 0, cloneWarning := false } }

/-- `webauthn.Config`: the relying-party configuration fields read here. -/
structure Config where
  rpid : String
  rpOrigin : String
deriving DecidableEq, Repr

/-! ## Relying-party user adapter -/

/-- The loop of `HasFIDOU2F`: scan the devices for an attestation type equal
to `fido-u2f`. -/
def hasFIDOU2FLoop : List WebAuthnDevice → Bool
  | [] => false
  | c :: cs =>
      if c.attestationType = attestationTypeFIDOU2F then true else hasFIDOU2FLoop cs

/-- `WebAuthnUser.HasFIDOU2F`. -/
def WebAuthnUser.hasFIDOU2F (w : WebAuthnUser) : Bool := hasFIDOU2FLoop w.devices

/-- `strings.Split` on a single-character separator: Go returns the
substrings between occurrences of the separator, so the empty string yields
one empty token. -/
def splitComma : List Char → List (List Char)
  | [] => [[]]
  | c :: cs =>
      if c = ',' then [] :: splitComma cs
      else
        match splitComma cs with
        | t :: ts => (c :: t) :: ts
        | [] => [[c]]

/-- The transport loop of `WebAuthnCredentials`: keep every non-empty token,
in order. -/
def keepNonEmpty : List String → List String
  | [] => []
  | t :: ts => if t = "" then keepNonEmpty ts else t :: keepNonEmpty ts

/-- The body of one iteration of `WebAuthnCredentials` after the aaguid
bytes have been obtained: copy id, public key and attestation type, build
the authenticator sub-object, split the stored transport string on `,` and
keep the non-empty tokens. -/
def translateDevice (device : WebAuthnDevice) (aaguid : List Nat) : Credential :=
  { id := device.kid.bytes
    publicKey := device.publicKey
    attestationType := device.attestationType
    transport := keepNonEmpty ((splitComma device.transport.toList).map String.mk)
    authenticator :=
      { aaguid := aaguid, signCount := device.signCount, cloneWarning := device.cloneWarning } }

/-- `WebAuthnUser.WebAuthnCredentials`: the result slice is pre-allocated at
the device count; an iteration whose aaguid fails to marshal `continue`s,
leaving the zero credential in its slot. -/
def WebAuthnUser.webAuthnCredentials (w : WebAuthnUser) : List Credential :=
  w.devices.map (fun device =>
    match device.aaguid.marshalBinary with
    | .error _ => zeroCredential
    | .ok aaguid => translateDevice device aaguid)

/-- `true` when the device's aaguid re-serializes into its binary form. -/
def aaguidMarshalOk (device : WebAuthnDevice) : Bool :=
  match device.aaguid.marshalBinary with
  | .ok _ => true
  | .error _ => false

/-- The bytes `NullUUID.marshalBinary` produces: the UUID's bytes when
valid, nothing otherwise. -/
def marshalledBytes (device : WebAuthnDevice) : List Nat :=
  if device.aaguid.valid then device.aaguid.uuid.bytes else []

/-! ## Device constructor (registration) -/

/-- `strings.Join` with the `,` separator. -/
def joinComma : List String → String
  | [] => ""
  | [t] => t
  | t :: ts => t ++ "," ++ joinComma ts

/-- `NewWebAuthnDeviceFromCredential`: build the device from the completed
registration (with `time.Now()` passed in as `now`), then mark the aaguid
valid only when its hex rendering parses as a UUID whose `ID()` is
non-zero. -/
def newWebAuthnDeviceFromCredential (rpid username description : String)
    (now : Int) (credential : Credential) : WebAuthnDevice :=
  let device : WebAuthnDevice :=
    { id := 0, createdAt := now, lastUsedAt := ⟨0, false⟩, rpid := rpid
      username := username, description := description
      kid := NewBase64 credential.id, publicKey := credential.publicKey
      attestationType := credential.attestationType
      transport := joinComma credential.transport
      aaguid := ⟨uuidNil, false⟩
      signCount := credential.authenticator.signCount
      cloneWarning := credential.authenticator.cloneWarning }
  match uuidParse (String.mk (hexEncode credential.authenticator.aaguid)) with
  | some aaguid =>
      if aaguid.id ≠ 0 then { device with aaguid := ⟨aaguid, true⟩ } else device
  | none => device

/-! ## Sign-in updater -/

/-- `WebAuthnDevice.UpdateSignInInfo` as a function on the receiver: stamp
`last_used_at` and `sign_count`, then assign `rpid` only when it is empty,
selecting by attestation type. -/
def WebAuthnDevice.updateSignInInfo (d : WebAuthnDevice) (config : Config)
    (now : Int) (signCount : Nat) : WebAuthnDevice :=
  let d := { d with lastUsedAt := ⟨now, true⟩, signCount := signCount }
  if d.rpid ≠ "" then d
  else if d.attestationType = attestationTypeFIDOU2F then { d with rpid := config.rpOrigin }
  else { d with rpid := config.rpid }

/-! ## External codec (`ToData` / `UnmarshalYAML`) and export container -/

/-- `model.WebAuthnDeviceData`, the export/import projection: binary values
rendered as text, the optional timestamp as a nullable value. -/
structure WebAuthnDeviceData where
  createdAt : Int
  lastUsedAt : Option Int
  rpid : String
  username : String
  description : String
  kid : String
  publicKey : String
  attestationType : String
  transport : String
  aaguid : String
  signCount : Nat
  cloneWarning : Bool
deriving DecidableEq, Repr

/-- `WebAuthnDevice.LastUsed`: the optional-timestamp view of
`last_used_at`. -/
def WebAuthnDevice.lastUsed (d : WebAuthnDevice) : Option Int :=
  if d.lastUsedAt.valid then some d.lastUsedAt.time else none

/-- `WebAuthnDevice.ToData`: scalars verbatim, public key as standard
base64 text, kid via its canonical text form, aaguid as the string form of
its UUID value (the Valid flag is not consulted), `last_used_at` present
only when valid. -/
def WebAuthnDevice.toData (d : WebAuthnDevice) : WebAuthnDeviceData :=
  { createdAt := d.createdAt
    lastUsedAt := d.lastUsed
    rpid := d.rpid
    username := d.username
    description := d.description
    kid := d.kid.toString
    publicKey := b64EncodeStr d.publicKey
    attestationType := d.attestationType
    transport := d.transport
    aaguid := d.aaguid.uuid.toString
    signCount := d.signCount
    cloneWarning := d.cloneWarning }

/-- `WebAuthnDevice.UnmarshalYAML`, applied once the generic structured-text
engine has produced the intermediate `WebAuthnDeviceData` value `o`.  The
steps run in the code's order — public key, aaguid, kid, then the verbatim
scalar fields and the optional timestamp — each assigning into the
receiver; the first failing step returns immediately with the error and the
receiver as mutated so far.  The result pairs the final receiver state with
the error outcome (`none` means success). -/
def WebAuthnDevice.unmarshalYAML (d : WebAuthnDevice) (o : WebAuthnDeviceData) :
    WebAuthnDevice × Option String :=
  match b64DecodeStr o.publicKey with
  | none => (d, some "illegal base64 data in public_key")
  | some publicKey =>
    let d1 := { d with publicKey := publicKey }
    match uuidParse o.aaguid with
    | none => (d1, some "invalid UUID in aaguid")
    | some aaguid =>
      let d2 := if aaguid.id ≠ 0 then { d1 with aaguid := ⟨aaguid, true⟩ } else d1
      match b64DecodeStr o.kid with
      | none => (d2, some "illegal base64 data in kid")
      | some kid =>
        let d3 :=
          { d2 with
            kid := NewBase64 kid
            createdAt := o.createdAt, rpid := o.rpid, username := o.username
            description := o.description, attestationType := o.attestationType
            transport := o.transport, signCount := o.signCount
            cloneWarning := o.cloneWarning }
        match o.lastUsedAt with
        | some t => ({ d3 with lastUsedAt := ⟨t, true⟩ }, none)
        | none => (d3, none)

/-- `model.WebAuthnDeviceExport`. -/
structure WebAuthnDeviceExport where
  webAuthnDevices : List WebAuthnDevice
deriving DecidableEq, Repr

/-- `model.WebAuthnDeviceDataExport`. -/
structure WebAuthnDeviceDataExport where
  webAuthnDevices : List WebAuthnDeviceData
deriving DecidableEq, Repr

/-- The loop of `WebAuthnDeviceExport.ToData`: the i-th output slot receives
the i-th device's `ToData`. -/
def exportToDataLoop : List WebAuthnDevice → List WebAuthnDeviceData
  | [] => []
  | d :: ds => d.toData :: exportToDataLoop ds

/-- `WebAuthnDeviceExport.ToData`. -/
def WebAuthnDeviceExport.toData (e : WebAuthnDeviceExport) : WebAuthnDeviceDataExport :=
  ⟨exportToDataLoop e.webAuthnDevices⟩

/-- Modelled from the spec: decoding an export container is not in this
file (the structured-text engine walks the `webauthn_devices` sequence,
decoding each record into a fresh device through the Device External Codec
hook); per the spec it applies the codec to each element independently,
preserving order, and a decode failure on any element aborts the entire
container decode with no partial container returned. -/
def decodeExportData : List WebAuthnDeviceData → Except String (List WebAuthnDevice)
  | [] => .ok []
  | o :: os =>
      match zeroWebAuthnDevice.unmarshalYAML o with
      | (d, none) =>
          match decodeExportData os with
          | .ok ds => .ok (d :: ds)
          | .error msg => .error msg
      | (_, some msg) => .error msg

/-! ## Reachable-device predicate and concrete fixtures -/

/-- The devices this program ever constructs or decodes: byte fields hold
byte values, kid is non-empty, and the nullable fields are in a reachable
state — an unset aaguid holds the zero UUID, a set aaguid has non-zero
`ID()` (both the constructor and the decoder enforce exactly this), and an
unset `last_used_at` holds the zero time. -/
def WebAuthnDevice.wf (d : WebAuthnDevice) : Prop :=
  (∀ b ∈ d.publicKey, b < 256) ∧
  (∀ b ∈ d.kid.data, b < 256) ∧
  d.kid.data ≠ [] ∧
  d.aaguid.uuid.wf ∧
  (d.aaguid.valid = false → d.aaguid.uuid = uuidNil) ∧
  (d.aaguid.valid = true → d.aaguid.uuid.id ≠ 0) ∧
  (d.lastUsedAt.valid = false → d.lastUsedAt.time = 0)

instance (d : WebAuthnDevice) : Decidable d.wf := by
  unfold WebAuthnDevice.wf; infer_instance

/-- A registration credential whose aaguid bytes are all zero except byte
four: a well-formed sixteen-byte aaguid that is not the all-zero UUID, yet
whose `ID()` (first four bytes) is zero. -/
def credentialZeroTimeLow : Credential :=
  { zeroCredential with
      authenticator :=
        { aaguid := [0, 0, 0, 0, 1, 0, 0, 0, 0, 0, 0, 0, 0, 0, 0, 0]
          signCount := 0, cloneWarning := false } }

/-- A persisted device with a non-zero surrogate id and otherwise simple
valid content. -/
def deviceIdOne : WebAuthnDevice :=
  { zeroWebAuthnDevice with
      id := 1, rpid := "example.com", username := "john"
      kid := ⟨[1]⟩, publicKey := [2] }

/-- A device whose public key is the single byte 1, the decode target of
the C5 counterexample. -/
def devicePk1 : WebAuthnDevice := { zeroWebAuthnDevice with publicKey := [1] }

/-- An export record whose public-key text decodes (to the single zero
byte) but whose aaguid text is not a valid UUID. -/
def dataBadAAGUID : WebAuthnDeviceData :=
  { createdAt := 0, lastUsedAt := none, rpid := "", username := ""
    description := "", kid := "", publicKey := "AA==", attestationType := ""
    transport := "", aaguid := "x", signCount := 0, cloneWarning := false }

/-- An export record every step of whose decode succeeds. -/
def goodData : WebAuthnDeviceData :=
  { createdAt := 0, lastUsedAt := none, rpid := "", username := ""
    description := "", kid := "", publicKey := "", attestationType := ""
    transport := "", aaguid := "00000000-0000-0000-0000-000000000000"
    signCount := 0, cloneWarning := false }

/-- `goodData` with an invalid public-key encoding. -/
def badData : WebAuthnDeviceData := { goodData with publicKey := "!" }

end Webauthn

namespace Webauthn

/-! ## First batch of theorems: capability query, sign-in updater, transports -/

/-- The scan loop is `true` exactly when some device carries the tag. -/
theorem hasFIDOU2FLoop_iff (ds : List WebAuthnDevice) :
    hasFIDOU2FLoop ds = true ↔ ∃ d ∈ ds, d.attestationType = attestationTypeFIDOU2F := by
  induction ds with
  | nil => simp [hasFIDOU2FLoop]
  | cons c cs ih =>
    by_cases h : c.attestationType = attestationTypeFIDOU2F
    · simp [hasFIDOU2FLoop, h]
    · simp [hasFIDOU2FLoop, h, ih]

/-- C9: `HasFIDOU2F` returns `true` iff at least one device's
`attestation_type` equals the legacy tag `fido-u2f`; on an empty device list
it returns `false`. -/
theorem hasFIDOU2F_iff_exists (w : WebAuthnUser) :
    (w.hasFIDOU2F = true ↔ ∃ d ∈ w.devices, d.attestationType = "fido-u2f") ∧
    (w.devices = [] → w.hasFIDOU2F = false) := by
  constructor
  · exact hasFIDOU2FLoop_iff w.devices
  · intro h
    simp [WebAuthnUser.hasFIDOU2F, h, hasFIDOU2FLoop]

/-- C9 witness: a user with one `fido-u2f` device answers `true`, a user
with one `packed` device answers `false`, and a user with no devices
answers `false`. -/
theorem hasFIDOU2F_iff_exists_witness :
    (WebAuthnUser.hasFIDOU2F ⟨"u", "U",
      [{ zeroWebAuthnDevice with attestationType := "fido-u2f" }]⟩ = true) ∧
    (WebAuthnUser.hasFIDOU2F ⟨"u", "U",
      [{ zeroWebAuthnDevice with attestationType := "packed" }]⟩ = false) ∧
    (WebAuthnUser.hasFIDOU2F ⟨"u", "U", []⟩ = false) := by
  refine ⟨?_, ?_, ?_⟩
  · exact (hasFIDOU2F_iff_exists _).1.mpr
      ⟨{ zeroWebAuthnDevice with attestationType := "fido-u2f" }, by simp, rfl⟩
  · by_contra h
    simp only [Bool.not_eq_false] at h
    rcases (hasFIDOU2F_iff_exists _).1.mp h with ⟨d, hd, ht⟩
    simp_all
  · exact (hasFIDOU2F_iff_exists _).2 rfl

/-- C4: `UpdateSignInInfo` assigns `rpid` only when it is empty, selecting
the configured origin for the `fido-u2f` attestation type and the
configured relying-party id otherwise; a device whose `rpid` is already
non-empty keeps it under any configuration, so a second call after a
first call that produced a non-empty `rpid` changes nothing. -/
theorem updateSignInInfo_rpid (d : WebAuthnDevice) (config config' : Config)
    (now now' : Int) (signCount signCount' : Nat) :
    ((d.updateSignInInfo config now signCount).rpid =
      if d.rpid = "" then
        (if d.attestationType = attestationTypeFIDOU2F then config.rpOrigin else config.rpid)
      else d.rpid) ∧
    (d.rpid ≠ "" → (d.updateSignInInfo config now signCount).rpid = d.rpid) ∧
    ((d.updateSignInInfo config now signCount).rpid ≠ "" →
      ((d.updateSignInInfo config now signCount).updateSignInInfo config' now' signCount').rpid =
        (d.updateSignInInfo config now signCount).rpid) := by
  refine ⟨?_, ?_, ?_⟩
  · by_cases h : d.rpid = "" <;>
      by_cases ha : d.attestationType = attestationTypeFIDOU2F <;>
      simp [WebAuthnDevice.updateSignInInfo, h, ha]
  · intro h
    simp [WebAuthnDevice.updateSignInInfo, h]
  · intro h
    simp only [WebAuthnDevice.updateSignInInfo] at h ⊢
    split at h
    · simp_all
    · split at h <;> simp_all

/-- C4 witness: an empty-rpid `fido-u2f` device receives the configured
origin, and a second call with a different configuration leaves that value
in place. -/
theorem updateSignInInfo_rpid_witness :
    (WebAuthnDevice.updateSignInInfo
        { zeroWebAuthnDevice with attestationType := "fido-u2f" }
        ⟨"example.com", "https://example.com"⟩ 5 9).rpid = "https://example.com" ∧
    (WebAuthnDevice.updateSignInInfo
        (WebAuthnDevice.updateSignInInfo
          { zeroWebAuthnDevice with attestationType := "fido-u2f" }
          ⟨"example.com", "https://example.com"⟩ 5 9)
        ⟨"other.org", "https://other.org"⟩ 6 10).rpid = "https://example.com" := by
  have h := updateSignInInfo_rpid
    { zeroWebAuthnDevice with attestationType := "fido-u2f" }
    ⟨"example.com", "https://example.com"⟩ ⟨"other.org", "https://other.org"⟩ 5 6 9 10
  refine ⟨?_, ?_⟩
  · rw [h.1]; decide
  · have h1 : (WebAuthnDevice.updateSignInInfo
        { zeroWebAuthnDevice with attestationType := "fido-u2f" }
        ⟨"example.com", "https://example.com"⟩ 5 9).rpid = "https://example.com" := by
      rw [h.1]; decide
    rw [h.2.2 (by rw [h1]; decide), h1]

/-- C7: `UpdateSignInInfo` always stamps `last_used_at` with the given time
and always overwrites `sign_count` with the reported value, with no
comparison against the prior counter and independently of the rpid
branch. -/
theorem updateSignInInfo_always_stamps (d : WebAuthnDevice) (config : Config)
    (now : Int) (signCount : Nat) :
    (d.updateSignInInfo config now signCount).lastUsedAt = ⟨now, true⟩ ∧
    (d.updateSignInInfo config now signCount).signCount = signCount := by
  by_cases h : d.rpid = "" <;>
    by_cases ha : d.attestationType = attestationTypeFIDOU2F <;>
    simp [WebAuthnDevice.updateSignInInfo, h, ha]

/-- C10: `UpdateSignInInfo` touches at most `last_used_at`, `sign_count`
and `rpid`; every other field of the device is returned unchanged. -/
theorem updateSignInInfo_frame (d : WebAuthnDevice) (config : Config)
    (now : Int) (signCount : Nat) :
    (d.updateSignInInfo config now signCount).id = d.id ∧
    (d.updateSignInInfo config now signCount).createdAt = d.createdAt ∧
    (d.updateSignInInfo config now signCount).username = d.username ∧
    (d.updateSignInInfo config now signCount).description = d.description ∧
    (d.updateSignInInfo config now signCount).kid = d.kid ∧
    (d.updateSignInInfo config now signCount).publicKey = d.publicKey ∧
    (d.updateSignInInfo config now signCount).attestationType = d.attestationType ∧
    (d.updateSignInInfo config now signCount).transport = d.transport ∧
    (d.updateSignInInfo config now signCount).aaguid = d.aaguid ∧
    (d.updateSignInInfo config now signCount).cloneWarning = d.cloneWarning := by
  by_cases h : d.rpid = "" <;>
    by_cases ha : d.attestationType = attestationTypeFIDOU2F <;>
    simp [WebAuthnDevice.updateSignInInfo, h, ha]

end Webauthn

namespace Webauthn

/-! ## Credential translation theorems -/

/-- `NullUUID.MarshalBinary` never fails. -/
theorem marshalBinary_ok (device : WebAuthnDevice) :
    device.aaguid.marshalBinary = .ok (marshalledBytes device) := by
  by_cases h : device.aaguid.valid <;>
    simp [NullUUID.marshalBinary, marshalledBytes, h]

/-- Every device's aaguid re-serializes. -/
theorem aaguidMarshalOk_always (device : WebAuthnDevice) :
    aaguidMarshalOk device = true := by
  simp [aaguidMarshalOk, marshalBinary_ok]

/-- The produced credential list is the in-order translation of the
marshal-surviving devices. -/
theorem webAuthnCredentials_eq_map (w : WebAuthnUser) :
    w.webAuthnCredentials =
      w.devices.map (fun device => translateDevice device (marshalledBytes device)) := by
  unfold WebAuthnUser.webAuthnCredentials
  apply List.map_congr_left
  intro d _
  rw [marshalBinary_ok]

/-- C1: `WebAuthnCredentials` excludes exactly the devices whose aaguid
fails to re-serialize — that set is empty, since `NullUUID.MarshalBinary`
cannot fail — so every device appears translated, in order, the overall
call succeeds, and no placeholder credential stands in for an excluded
device. -/
theorem webAuthnCredentials_excludes_none (w : WebAuthnUser) :
    w.webAuthnCredentials =
      (w.devices.filter aaguidMarshalOk).map
        (fun device => translateDevice device (marshalledBytes device)) ∧
    w.devices.filter aaguidMarshalOk = w.devices := by
  have hfilter : w.devices.filter aaguidMarshalOk = w.devices :=
    List.filter_eq_self.mpr (fun d _ => aaguidMarshalOk_always d)
  exact ⟨by rw [hfilter, webAuthnCredentials_eq_map], hfilter⟩

/-- The transport loop keeps exactly the non-empty tokens, in order. -/
theorem keepNonEmpty_eq_filter (ts : List String) :
    keepNonEmpty ts = ts.filter (fun t => !(t == "")) := by
  induction ts with
  | nil => rfl
  | cons t ts ih =>
    by_cases h : t = "" <;> simp [keepNonEmpty, h, ih]

/-- C8: the translated credential of every device carries as transports the
comma-separated tokens of the stored transport string, with the empty
tokens discarded and the order preserved. -/
theorem webAuthnCredentials_transport (w : WebAuthnUser) (i : Nat)
    (hi : i < w.webAuthnCredentials.length) (hd : i < w.devices.length) :
    (w.webAuthnCredentials.get ⟨i, hi⟩).transport =
      (((splitComma (w.devices.get ⟨i, hd⟩).transport.toList).map String.mk).filter
        (fun t => !(t == ""))) := by
  have hmap := webAuthnCredentials_eq_map w
  have : w.webAuthnCredentials.get ⟨i, hi⟩ =
      translateDevice (w.devices.get ⟨i, hd⟩) (marshalledBytes (w.devices.get ⟨i, hd⟩)) := by
    have := List.get_of_eq hmap ⟨i, hi⟩
    rw [this]
    simp [List.getElem_map]
  rw [this]
  simp [translateDevice, keepNonEmpty_eq_filter]

/-- C8 witness: a stored transport of `usb,nfc` translates to exactly
`[usb, nfc]` in that order, and an empty stored transport translates to the
empty list. -/
theorem webAuthnCredentials_transport_witness :
    ((WebAuthnUser.webAuthnCredentials
        ⟨"u", "U", [{ zeroWebAuthnDevice with transport := "usb,nfc" }]⟩).get
      ⟨0, by decide⟩).transport = ["usb", "nfc"] ∧
    ((WebAuthnUser.webAuthnCredentials
        ⟨"u", "U", [zeroWebAuthnDevice]⟩).get
      ⟨0, by decide⟩).transport = [] := by
  constructor
  · rw [webAuthnCredentials_transport
      ⟨"u", "U", [{ zeroWebAuthnDevice with transport := "usb,nfc" }]⟩ 0 (by decide) (by decide)]
    decide
  · rw [webAuthnCredentials_transport
      ⟨"u", "U", [zeroWebAuthnDevice]⟩ 0 (by decide) (by decide)]
    decide

end Webauthn

namespace Webauthn

/-! ## Device constructor theorems -/

/-- C3 counterexample: this credential's aaguid bytes parse as a UUID and
the parsed value is not the all-zero UUID, yet the constructor leaves the
device's aaguid unset — refuting the claim that validity is decided by
"parses and is not all-zero". -/
theorem newDevice_aaguid_not_allzero_counterexample :
    uuidParse (String.mk (hexEncode credentialZeroTimeLow.authenticator.aaguid)) =
      some ⟨0, 0, 0, 0, 1, 0, 0, 0, 0, 0, 0, 0, 0, 0, 0, 0⟩ ∧
    (⟨0, 0, 0, 0, 1, 0, 0, 0, 0, 0, 0, 0, 0, 0, 0, 0⟩ : UUID) ≠ uuidNil ∧
    (newWebAuthnDeviceFromCredential "rp" "user" "desc" 0
        credentialZeroTimeLow).aaguid.valid = false := by
  refine ⟨by decide, by decide, by decide⟩

/-- C3 amended: the constructor marks the aaguid valid exactly when the
credential's aaguid bytes parse as a UUID whose `ID()` — the big-endian
word formed by its first four bytes — is non-zero; it then stores that
parsed UUID, and in every other case the aaguid is left at its unset zero
value. -/
theorem newDevice_aaguid_iff (rpid username description : String) (now : Int)
    (credential : Credential) :
    ((newWebAuthnDeviceFromCredential rpid username description now credential).aaguid.valid = true
      ↔ ∃ u, uuidParse (String.mk (hexEncode credential.authenticator.aaguid)) = some u ∧
          u.id ≠ 0) ∧
    (∀ u, uuidParse (String.mk (hexEncode credential.authenticator.aaguid)) = some u →
      u.id ≠ 0 →
      (newWebAuthnDeviceFromCredential rpid username description now credential).aaguid =
        ⟨u, true⟩) ∧
    ((¬ ∃ u, uuidParse (String.mk (hexEncode credential.authenticator.aaguid)) = some u ∧
        u.id ≠ 0) →
      (newWebAuthnDeviceFromCredential rpid username description now credential).aaguid =
        ⟨uuidNil, false⟩) := by
  unfold newWebAuthnDeviceFromCredential
  cases hp : uuidParse (String.mk (hexEncode credential.authenticator.aaguid)) with
  | none => simp
  | some u =>
    by_cases hid : u.id = 0
    · simp [hid]
    · simp [hid]

/-- C3 amended witness: a sixteen-byte aaguid starting with byte one parses
to a UUID with non-zero `ID()`, and the constructor stores it as valid. -/
theorem newDevice_aaguid_iff_witness :
    (newWebAuthnDeviceFromCredential "rp" "user" "desc" 0
        { zeroCredential with
            authenticator :=
              { aaguid := [1, 0, 0, 0, 0, 0, 0, 0, 0, 0, 0, 0, 0, 0, 0, 0]
                signCount := 0, cloneWarning := false } }).aaguid =
      ⟨⟨1, 0, 0, 0, 0, 0, 0, 0, 0, 0, 0, 0, 0, 0, 0, 0⟩, true⟩ :=
  (newDevice_aaguid_iff "rp" "user" "desc" 0 _).2.1
    ⟨1, 0, 0, 0, 0, 0, 0, 0, 0, 0, 0, 0, 0, 0, 0, 0⟩ (by decide) (by decide)

end Webauthn

namespace Webauthn

/-! ## Base64 and hex round-trip lemmas -/

/-- Each of the sixteen hex digits decodes back to its value. -/
theorem hexVal_hexChr_fin : ∀ v : Fin 16, hexVal (hexChr v.val) = some v.val := by decide

/-- Hex digit round trip. -/
theorem hexVal_hexChr (v : Nat) (h : v < 16) : hexVal (hexChr v) = some v :=
  hexVal_hexChr_fin ⟨v, h⟩

/-- The hex pair of a byte decodes back to the byte. -/
theorem xtob_hexPair (b : Nat) (h : b < 256) :
    xtob (hexPairHi b) (hexPairLo b) = some b := by
  unfold xtob hexPairHi hexPairLo
  rw [hexVal_hexChr (b / 16) (by omega), hexVal_hexChr (b % 16) (by omega)]
  show some (b / 16 * 16 + b % 16) = some b
  exact congrArg some (by omega)

/-- Each of the sixty-four alphabet characters decodes back to its value. -/
theorem b64Val_b64Chr_fin : ∀ v : Fin 64, b64Val (b64Chr v.val) = some v.val := by decide

/-- Base64 digit round trip. -/
theorem b64Val_b64Chr (v : Nat) (h : v < 64) : b64Val (b64Chr v) = some v :=
  b64Val_b64Chr_fin ⟨v, h⟩

/-- No alphabet character is the padding character (out-of-range values
fall back to the default `A`, which is not `=` either). -/
theorem b64Chr_ne_pad (v : Nat) : b64Chr v ≠ '=' := by
  by_cases hv : v < 64
  · exact (by decide : ∀ w : Fin 64, b64Chr w.val ≠ '=') ⟨v, hv⟩
  · unfold b64Chr
    rw [List.getD_eq_default]
    · decide
    · have : b64Alphabet.length = 64 := by decide
      omega

/-- No character `b64Chr` can produce is a newline. -/
theorem b64Chr_not_newline (v : Nat) : (!(b64Chr v == '\r' || b64Chr v == '\n')) = true := by
  by_cases hv : v < 64
  · exact (by decide : ∀ w : Fin 64, (!(b64Chr w.val == '\r' || b64Chr w.val == '\n')) = true)
      ⟨v, hv⟩
  · unfold b64Chr
    rw [List.getD_eq_default]
    · decide
    · have : b64Alphabet.length = 64 := by decide
      omega

/-- No character of an encoded text is a newline. -/
theorem b64Encode_no_newline :
    ∀ bs : List Nat, ∀ c ∈ b64Encode bs, (!(c == '\r' || c == '\n')) = true := by
  intro bs
  induction bs using b64Encode.induct with
  | case1 => simp [b64Encode]
  | case2 b1 =>
    intro c hc
    simp only [b64Encode, List.mem_cons, List.mem_singleton] at hc
    rcases hc with rfl | rfl | rfl | hc
    · exact b64Chr_not_newline _
    · exact b64Chr_not_newline _
    · decide
    · simp at hc
      subst hc
      decide
  | case3 b1 b2 =>
    intro c hc
    simp only [b64Encode, List.mem_cons, List.mem_singleton] at hc
    rcases hc with rfl | rfl | rfl | hc
    · exact b64Chr_not_newline _
    · exact b64Chr_not_newline _
    · exact b64Chr_not_newline _
    · simp at hc
      subst hc
      decide
  | case4 b1 b2 b3 bs ih =>
    intro c hc
    simp only [b64Encode, List.mem_cons] at hc
    rcases hc with rfl | rfl | rfl | rfl | hc
    · exact b64Chr_not_newline _
    · exact b64Chr_not_newline _
    · exact b64Chr_not_newline _
    · exact b64Chr_not_newline _
    · exact ih c hc

/-- The newline filter of `DecodeString` leaves an encoded text intact. -/
theorem b64Encode_filter (bs : List Nat) :
    (b64Encode bs).filter (fun c => !(c == '\r' || c == '\n')) = b64Encode bs :=
  List.filter_eq_self.mpr (b64Encode_no_newline bs)

/-- Chunk-level base64 round trip over byte lists. -/
theorem b64DecodeChunks_encode :
    ∀ bs : List Nat, (∀ b ∈ bs, b < 256) → b64DecodeChunks (b64Encode bs) = some bs := by
  intro bs
  induction bs using b64Encode.induct with
  | case1 => intro h; rfl
  | case2 b1 =>
    intro h
    have hb1 : b1 < 256 := h b1 (by simp)
    have e1 := b64Val_b64Chr (b1 / 4) (by omega)
    have e2 := b64Val_b64Chr (b1 % 4 * 16) (by omega)
    simp [b64Encode, b64DecodeChunks, e1, e2]
    omega
  | case3 b1 b2 =>
    intro h
    have hb1 : b1 < 256 := h b1 (by simp)
    have hb2 : b2 < 256 := h b2 (by simp)
    have e1 := b64Val_b64Chr (b1 / 4) (by omega)
    have e2 := b64Val_b64Chr (b1 % 4 * 16 + b2 / 16) (by omega)
    have e3 := b64Val_b64Chr (b2 % 16 * 4) (by omega)
    have n3 := b64Chr_ne_pad (b2 % 16 * 4)
    simp [b64Encode, b64DecodeChunks, e1, e2, e3, n3]
    omega
  | case4 b1 b2 b3 bs ih =>
    intro h
    have hb1 : b1 < 256 := h b1 (by simp)
    have hb2 : b2 < 256 := h b2 (by simp)
    have hb3 : b3 < 256 := h b3 (by simp)
    have ih' := ih (fun b hb => h b (by simp [hb]))
    have e1 := b64Val_b64Chr (b1 / 4) (by omega)
    have e2 := b64Val_b64Chr (b1 % 4 * 16 + b2 / 16) (by omega)
    have e3 := b64Val_b64Chr (b2 % 16 * 4 + b3 / 64) (by omega)
    have e4 := b64Val_b64Chr (b3 % 64) (by omega)
    have n3 := b64Chr_ne_pad (b2 % 16 * 4 + b3 / 64)
    have n4 := b64Chr_ne_pad (b3 % 64)
    simp [b64Encode, b64DecodeChunks, e1, e2, e3, e4, n3, n4, ih']
    refine ⟨by omega, by omega, by omega⟩

/-- String-level base64 round trip: decoding the standard encoding of any
byte list recovers it. -/
theorem b64DecodeStr_encodeStr (bs : List Nat) (h : ∀ b ∈ bs, b < 256) :
    b64DecodeStr (b64EncodeStr bs) = some bs := by
  unfold b64DecodeStr b64EncodeStr
  rw [show (String.mk (b64Encode bs)).toList = b64Encode bs from rfl]
  rw [b64Encode_filter, b64DecodeChunks_encode bs h]

end Webauthn

namespace Webauthn

/-! ## UUID round-trip lemma -/

/-- Parsing the canonical dashed string of a well-formed UUID recovers
it. -/
theorem uuidParse_toString (u : UUID) (h : u.wf) : uuidParse u.toString = some u := by
  obtain ⟨h0, h1, h2, h3, h4, h5, h6, h7, h8, h9, h10, h11, h12, h13, h14, h15⟩ := h
  have e0 := xtob_hexPair u.b0 h0
  have e1 := xtob_hexPair u.b1 h1
  have e2 := xtob_hexPair u.b2 h2
  have e3 := xtob_hexPair u.b3 h3
  have e4 := xtob_hexPair u.b4 h4
  have e5 := xtob_hexPair u.b5 h5
  have e6 := xtob_hexPair u.b6 h6
  have e7 := xtob_hexPair u.b7 h7
  have e8 := xtob_hexPair u.b8 h8
  have e9 := xtob_hexPair u.b9 h9
  have e10 := xtob_hexPair u.b10 h10
  have e11 := xtob_hexPair u.b11 h11
  have e12 := xtob_hexPair u.b12 h12
  have e13 := xtob_hexPair u.b13 h13
  have e14 := xtob_hexPair u.b14 h14
  have e15 := xtob_hexPair u.b15 h15
  show uuidParse (String.mk (uuidChars u)) = some u
  have hlist : (String.mk (uuidChars u)).toList = uuidChars u := rfl
  unfold uuidParse
  rw [hlist]
  have hlen : (uuidChars u).length = 36 := by simp [uuidChars]
  rw [if_pos hlen]
  show parseDashed (uuidChars u) = some u
  unfold uuidChars parseDashed
  simp only [e0, e1, e2, e3, e4, e5, e6, e7, e8, e9, e10, e11, e12, e13, e14, e15]

end Webauthn

namespace Webauthn

/-! ## Codec round trip and failure theorems -/

/-- Decoding the encoding of a reachable device into a fresh zero device
succeeds and reproduces every field except the surrogate id, which is not
part of the export shape. -/
theorem unmarshal_toData (d : WebAuthnDevice) (h : d.wf) :
    zeroWebAuthnDevice.unmarshalYAML d.toData = ({ d with id := 0 }, none) := by
  obtain ⟨did, dca, ⟨lut, luv⟩, drp, dun, dde, ⟨kd⟩, dpk, dat, dtr, ⟨au, av⟩, dsc, dcw⟩ := d
  obtain ⟨hpk, hkid, -, huwf, hunset, hset, hlu⟩ := h
  simp only at hpk hkid huwf hunset hset hlu
  have hpk' := b64DecodeStr_encodeStr dpk hpk
  have hkid' := b64DecodeStr_encodeStr kd hkid
  have hu := uuidParse_toString au huwf
  cases av with
  | false =>
    have hnil : au = uuidNil := hunset rfl
    subst hnil
    have hid : uuidNil.id = 0 := rfl
    cases luv with
    | false =>
      have hlt : lut = 0 := hlu rfl
      subst hlt
      simp [WebAuthnDevice.toData, WebAuthnDevice.unmarshalYAML, WebAuthnDevice.lastUsed,
        Base64.toString, NewBase64, zeroWebAuthnDevice, hpk', hu, hkid', hid]
    | true =>
      simp [WebAuthnDevice.toData, WebAuthnDevice.unmarshalYAML, WebAuthnDevice.lastUsed,
        Base64.toString, NewBase64, zeroWebAuthnDevice, hpk', hu, hkid', hid]
  | true =>
    have hid : au.id ≠ 0 := hset rfl
    cases luv with
    | false =>
      have hlt : lut = 0 := hlu rfl
      subst hlt
      simp [WebAuthnDevice.toData, WebAuthnDevice.unmarshalYAML, WebAuthnDevice.lastUsed,
        Base64.toString, NewBase64, zeroWebAuthnDevice, hpk', hu, hkid', hid]
    | true =>
      simp [WebAuthnDevice.toData, WebAuthnDevice.unmarshalYAML, WebAuthnDevice.lastUsed,
        Base64.toString, NewBase64, zeroWebAuthnDevice, hpk', hu, hkid', hid]

end Webauthn

namespace Webauthn

/-! ## C2, C5, C6 claim theorems -/

/-- C2 counterexample: `deviceIdOne` is a perfectly valid device (unset
aaguid, absent last-used time, byte-valued key fields, non-empty kid), yet
decoding its encoding does not reproduce it exactly — the surrogate id is
not part of the export shape and comes back as zero. -/
theorem roundtrip_drops_id_counterexample :
    deviceIdOne.wf ∧
    zeroWebAuthnDevice.unmarshalYAML deviceIdOne.toData ≠ (deviceIdOne, none) := by
  refine ⟨by decide, by decide⟩

/-- C2 amended: for every reachable device (byte-valued key fields,
non-empty kid, unset aaguid holding the zero UUID, set aaguid with
non-zero `ID()`, unset last-used time holding zero), decoding the encoding
succeeds and reproduces every field except the surrogate id, which is not
exported and stays at the decode target's zero. -/
theorem roundtrip_exact_except_id (d : WebAuthnDevice) (h : d.wf) :
    zeroWebAuthnDevice.unmarshalYAML d.toData = ({ d with id := 0 }, none) :=
  unmarshal_toData d h

/-- C2 amended witness: the round trip is applied to a device with unset
aaguid, empty transport and absent last-used time, and to a device with a
valid aaguid, a multi-token transport and a present last-used time; both
come back exactly (their ids are zero already). -/
theorem roundtrip_exact_except_id_witness :
    (zeroWebAuthnDevice.unmarshalYAML
        ({ zeroWebAuthnDevice with kid := ⟨[1]⟩, publicKey := [2, 3] }).toData =
      ({ zeroWebAuthnDevice with kid := ⟨[1]⟩, publicKey := [2, 3] }, none)) ∧
    (zeroWebAuthnDevice.unmarshalYAML
        ({ zeroWebAuthnDevice with
            kid := ⟨[4, 5, 6]⟩, publicKey := [7], transport := "usb,nfc"
            lastUsedAt := ⟨123, true⟩, username := "john", rpid := "example.com"
            description := "primary", attestationType := "packed"
            aaguid := ⟨⟨1, 2, 3, 4, 5, 6, 7, 8, 9, 10, 11, 12, 13, 14, 15, 16⟩, true⟩
            signCount := 42, cloneWarning := true }).toData =
      ({ zeroWebAuthnDevice with
          kid := ⟨[4, 5, 6]⟩, publicKey := [7], transport := "usb,nfc"
          lastUsedAt := ⟨123, true⟩, username := "john", rpid := "example.com"
          description := "primary", attestationType := "packed"
          aaguid := ⟨⟨1, 2, 3, 4, 5, 6, 7, 8, 9, 10, 11, 12, 13, 14, 15, 16⟩, true⟩
          signCount := 42, cloneWarning := true }, none)) := by
  constructor
  · exact (roundtrip_exact_except_id _ (by decide)).trans (by decide)
  · exact (roundtrip_exact_except_id _ (by decide)).trans (by decide)

/-- C5 counterexample: decoding `dataBadAAGUID` (valid public-key text,
invalid aaguid text) into `devicePk1` fails with an error, yet the target
device is modified — its public key has already been overwritten by the
successfully decoded value. -/
theorem unmarshal_mutates_on_failure :
    (devicePk1.unmarshalYAML dataBadAAGUID).2 ≠ none ∧
    (devicePk1.unmarshalYAML dataBadAAGUID).1 ≠ devicePk1 := by
  refine ⟨by decide, by decide⟩

/-- C5 amended: whenever the public-key text or the kid text is not valid
base64, or the aaguid text is not a syntactically valid UUID, the decode
fails with an error (no decoded device is produced); the target may
however retain the assignments made before the failing step. -/
theorem unmarshal_invalid_fails (d : WebAuthnDevice) (o : WebAuthnDeviceData)
    (h : b64DecodeStr o.publicKey = none ∨ uuidParse o.aaguid = none ∨
         b64DecodeStr o.kid = none) :
    (d.unmarshalYAML o).2 ≠ none := by
  rcases h with h | h | h
  · simp [WebAuthnDevice.unmarshalYAML, h]
  · cases hp : b64DecodeStr o.publicKey <;>
      simp [WebAuthnDevice.unmarshalYAML, h, hp]
  · cases hp : b64DecodeStr o.publicKey with
    | none => simp [WebAuthnDevice.unmarshalYAML, hp]
    | some pk =>
      cases hu : uuidParse o.aaguid with
      | none => simp [WebAuthnDevice.unmarshalYAML, hp, hu]
      | some u =>
        by_cases hid : u.id = 0 <;>
          simp [WebAuthnDevice.unmarshalYAML, hp, hu, hid, h]

/-- C5 amended witness: decoding a record whose public-key text is `!`
into a fresh device fails. -/
theorem unmarshal_invalid_fails_witness :
    (zeroWebAuthnDevice.unmarshalYAML badData).2 ≠ none :=
  unmarshal_invalid_fails zeroWebAuthnDevice badData (Or.inl (by decide))

/-- The export loop is an in-order map of the element codec. -/
theorem exportToDataLoop_eq_map (ds : List WebAuthnDevice) :
    exportToDataLoop ds = ds.map WebAuthnDevice.toData := by
  induction ds with
  | nil => rfl
  | cons d ds ih => simp [exportToDataLoop, ih]

/-- A failing element aborts the whole container decode. -/
theorem decodeExportData_aborts (ds : List WebAuthnDeviceData)
    (hfail : ∃ o ∈ ds, (zeroWebAuthnDevice.unmarshalYAML o).2 ≠ none) :
    ∃ msg, decodeExportData ds = .error msg := by
  induction ds with
  | nil => simp at hfail
  | cons o os ih =>
    obtain ⟨o', ho', hf⟩ := hfail
    rcases List.mem_cons.mp ho' with rfl | hmem
    · cases hp : zeroWebAuthnDevice.unmarshalYAML o' with
      | mk dd oe =>
        cases oe with
        | none => rw [hp] at hf; simp at hf
        | some msg => exact ⟨msg, by simp [decodeExportData, hp]⟩
    · cases hp : zeroWebAuthnDevice.unmarshalYAML o with
      | mk dd oe =>
        cases oe with
        | none =>
          obtain ⟨msg, hm⟩ := ih ⟨o', hmem, hf⟩
          exact ⟨msg, by simp [decodeExportData, hp, hm]⟩
        | some msg => exact ⟨msg, by simp [decodeExportData, hp]⟩

/-- C6: export-container encoding applies the element codec position by
position, preserving length and order; and a container decode in which
some element fails aborts entirely, returning an error and no devices. -/
theorem exportCodec_order_and_abort (e : WebAuthnDeviceExport) (i : Nat)
    (hi : i < e.toData.webAuthnDevices.length) (hd : i < e.webAuthnDevices.length)
    (ds : List WebAuthnDeviceData)
    (hfail : ∃ o ∈ ds, (zeroWebAuthnDevice.unmarshalYAML o).2 ≠ none) :
    e.toData.webAuthnDevices.length = e.webAuthnDevices.length ∧
    e.toData.webAuthnDevices.get ⟨i, hi⟩ = (e.webAuthnDevices.get ⟨i, hd⟩).toData ∧
    ∃ msg, decodeExportData ds = .error msg := by
  refine ⟨?_, ?_, decodeExportData_aborts ds hfail⟩
  · simp [WebAuthnDeviceExport.toData, exportToDataLoop_eq_map]
  · have : e.toData.webAuthnDevices = e.webAuthnDevices.map WebAuthnDevice.toData := by
      simp [WebAuthnDeviceExport.toData, exportToDataLoop_eq_map]
    rw [List.get_of_eq this]
    simp [List.getElem_map]

/-- C6 witness: a three-record container whose middle record has an
invalid public-key encoding encodes position zero correctly, and decoding
it yields an error — no devices at all. -/
theorem exportCodec_order_and_abort_witness :
    (WebAuthnDeviceExport.toData ⟨[deviceIdOne]⟩).webAuthnDevices.get ⟨0, by decide⟩ =
      deviceIdOne.toData ∧
    ∃ msg, decodeExportData [goodData, badData, goodData] = .error msg := by
  have h := exportCodec_order_and_abort ⟨[deviceIdOne]⟩ 0 (by decide) (by decide)
    [goodData, badData, goodData] ⟨badData, by decide, by decide⟩
  exact ⟨h.2.1, h.2.2⟩

end Webauthn
